import Mathlib

/-!
Verification of the x2raindrop sync tool (Python) against its specification.

The Python sources are shallowly embedded: pure functions become Lean
functions over `String`/`List`; stateful orchestration (`SyncService.sync`)
becomes explicit state passing over a run state; fallible collaborator calls
(`create_raindrop`, `delete_bookmark`) are modelled as `Except`-valued
oracles supplied as parameters; Python exceptions raised and caught inside
the embedded code are modelled with `Except` over an exception type.
-/

namespace X2Raindrop

/-! ## Python string primitives

Python `len(s)` counts code points and `s[:n]` takes the first `n` code
points; Lean `Char` is a unicode scalar value, so `List Char` operations
model both exactly. -/

/-- Python `len(s)` (number of code points). -/
def pyLen (s : String) : Nat := s.data.length

/-- Python `s[:n]` (first `n` code points). -/
def pySlice (s : String) (n : Nat) : String := String.mk (s.data.take n)

/-- Python truthiness of an `Optional[str]`: `None` and `""` are falsy. -/
def pyTruthy : Option String → Bool
  | none => false
  | some s => !s.data.isEmpty

/-- Python `a or b` on `Optional[str]` values. -/
def pyOr (a b : Option String) : Option String :=
  if pyTruthy a then a else b

/-- Substring scan: does `n` occur contiguously inside the second list? -/
def subIn (n : List Char) : List Char → Bool
  | [] => n.isEmpty
  | c :: cs => n.isPrefixOf (c :: cs) || subIn n cs

/-- Python `needle in hay` for strings (substring containment). -/
def pyIn (needle hay : String) : Bool := subIn needle.data hay.data

/-- Python `s.startswith(p)`. -/
def pyStartsWith (s p : String) : Bool := p.data.isPrefixOf s.data

/-! ## models.py -/

/-- `LinkMode` enum from models.py. -/
inductive LinkMode where
  | permalink
  | first_external_url
  | both
deriving DecidableEq, Repr

/-- `BothBehavior` enum from models.py. -/
inductive BothBehavior where
  | one_external_plus_note
  | two_raindrops
deriving DecidableEq, Repr

/-- `BookmarkItem` from models.py.  `created_at` (a `datetime | None`) is
modelled as an optional integer timestamp; it is not consulted by any
embedded operation. -/
structure BookmarkItem where
  tweet_id : String
  text : String
  author_username : Option String := none
  author_name : Option String := none
  created_at : Option Int := none
  permalink : String
  external_urls : List String := []
deriving DecidableEq, Repr

/-- The `prefix` local variable built by `BookmarkItem.get_title`:
`"@{username}"`, wrapped as `"{name} (@{username})"` when the display
name is truthy. -/
def BookmarkItem.titleAuthorPfx (b : BookmarkItem) : String :=
  let p0 := "@" ++ b.author_username.getD ""
  if pyTruthy b.author_name then
    b.author_name.getD "" ++ " (" ++ p0 ++ ")"
  else p0

/-- `BookmarkItem.get_title` from models.py:

```python
if self.author_username:
    prefix = f"@{self.author_username}"
    if self.author_name:
        prefix = f"{self.author_name} ({prefix})"
    return (
        f"{prefix}: {self.text[:100]}..."[:150]
        if len(self.text) > 100
        else f"{prefix}: {self.text}"
    )
return self.text[:150] if len(self.text) > 150 else self.text
``` -/
def BookmarkItem.get_title (b : BookmarkItem) : String :=
  if pyTruthy b.author_username then
    let pfx := b.titleAuthorPfx
    if pyLen b.text > 100 then
      pySlice (pfx ++ ": " ++ pySlice b.text 100 ++ "...") 150
    else
      pfx ++ ": " ++ b.text
  else
    if pyLen b.text > 150 then pySlice b.text 150 else b.text

/-! ## auth_pkce.py: OAuth2Token -/

/-- `OAuth2Token` from auth_pkce.py.  `expires_at` (a `datetime`) is
modelled as an integer number of seconds on an absolute time line. -/
structure OAuth2Token where
  access_token : String
  refresh_token : Option String
  token_type : String
  expires_at : Int
  scope : String
deriving DecidableEq, Repr

/-- `OAuth2Token.is_expired`:
`datetime.now() >= (self.expires_at - timedelta(seconds=60))`,
with the current instant `now` passed explicitly. -/
def OAuth2Token.is_expired (t : OAuth2Token) (now : Int) : Bool :=
  decide (t.expires_at - 60 ≤ now)

/-! ## sync/service.py: resolve_links -/

/-- `resolve_links` from sync/service.py: which `(link, note)` pairs to
create for a bookmark under the configured link mode. -/
def resolve_links (bookmark : BookmarkItem) (link_mode : LinkMode)
    (both_behavior : BothBehavior) : List (String × Option String) :=
  match link_mode with
  | .permalink => [(bookmark.permalink, none)]
  | .first_external_url =>
    match bookmark.external_urls with
    | [] => [(bookmark.permalink, none)]
    | u :: _ => [(u, some ("From: " ++ bookmark.permalink))]
  | .both =>
    match bookmark.external_urls with
    | [] => [(bookmark.permalink, none)]
    | u :: _ =>
      match both_behavior with
      | .one_external_plus_note =>
        [(u, some ("X Post: " ++ bookmark.permalink))]
      | .two_raindrops =>
        [(u, some ("From: " ++ bookmark.permalink)), (bookmark.permalink, none)]

/-! ## config.py: SyncSettings (the fields consumed by the sync service) -/

/-- The sync-relevant configuration from config.py. -/
structure SyncSettings where
  collection_id : Option Int
  tags : List String := []
  link_mode : LinkMode := .permalink
  both_behavior : BothBehavior := .one_external_plus_note
  remove_from_x : Bool := false
  dry_run : Bool := false
deriving DecidableEq, Repr

/-- `RaindropCreateRequest` from models.py. -/
structure RaindropCreateRequest where
  link : String
  title : Option String := none
  excerpt : Option String := none
  tags : List String := []
  collection_id : Int
  note : Option String := none
  source_tweet_id : String
deriving DecidableEq, Repr

/-- The raindrop returned by `RaindropClient.create_raindrop` (only the
fields the sync service reads: `link` and `id`). -/
structure Raindrop where
  id : Int
  link : String
deriving DecidableEq, Repr

/-- `SyncedBookmark` from models.py (the durable sync record). -/
structure SyncedBookmark where
  tweet_id : String
  raindrop_links : List String
  synced_at : Int
  deleted_from_x : Bool
deriving DecidableEq, Repr

/-- `SyncResult` from models.py. -/
structure SyncResult where
  total_bookmarks : Nat := 0
  already_synced : Nat := 0
  newly_synced : Nat := 0
  failed : Nat := 0
  deleted_from_x : Nat := 0
  errors : List String := []
deriving DecidableEq, Repr

/-- `SyncResult.add_error`. -/
def SyncResult.add_error (r : SyncResult) (e : String) : SyncResult :=
  { r with errors := r.errors ++ [e] }

/-! ## state.py: SyncState

The in-memory store `_synced` is a Python dict keyed by tweet id; it is
modelled as an association list that replaces in place on an existing key
and appends on a fresh key (Python dict insertion order). -/

/-- The in-memory part of `SyncState` from state.py. -/
structure SyncState where
  synced : List (String × SyncedBookmark) := []
  dirty : Bool := false
deriving DecidableEq, Repr

/-- `SyncState.is_synced`: membership of the tweet id in `_synced`. -/
def SyncState.is_synced (st : SyncState) (tweet_id : String) : Bool :=
  st.synced.any (fun p => p.1 = tweet_id)

/-- `SyncState.get_synced`: lookup of the record for a tweet id. -/
def SyncState.get_synced (st : SyncState) (tweet_id : String) :
    Option SyncedBookmark :=
  (st.synced.find? (fun p => p.1 = tweet_id)).map (·.2)

/-- Dict insertion: replace the value of an existing key in place, else
append the new binding. -/
def dictInsert (l : List (String × SyncedBookmark)) (k : String)
    (v : SyncedBookmark) : List (String × SyncedBookmark) :=
  if l.any (fun p => p.1 = k) then
    l.map (fun p => if p.1 = k then (k, v) else p)
  else
    l ++ [(k, v)]

/-- `SyncState.mark_synced`: insert/overwrite a `SyncedBookmark` stamped
with the current time and set the dirty flag. -/
def SyncState.mark_synced (st : SyncState) (tweet_id : String)
    (raindrop_links : List String) (deleted_from_x : Bool) (now : Int) :
    SyncState :=
  { synced := dictInsert st.synced tweet_id
      { tweet_id := tweet_id, raindrop_links := raindrop_links,
        synced_at := now, deleted_from_x := deleted_from_x },
    dirty := true }

/-! ## sync/service.py: create_raindrop_requests and SyncService.sync -/

/-- `create_raindrop_requests` from sync/service.py.  The Python function
raises `ValueError` when `collection_id` is unset; the error carries the
exception's message. -/
def create_raindrop_requests (bookmark : BookmarkItem)
    (settings : SyncSettings) : Except String (List RaindropCreateRequest) :=
  match settings.collection_id with
  | none => .error "collection_id must be set in sync settings"
  | some cid =>
    let links := resolve_links bookmark settings.link_mode settings.both_behavior
    .ok (links.map (fun ln =>
      { link := ln.1,
        title := some bookmark.get_title,
        excerpt := some bookmark.text,
        tags := settings.tags,
        collection_id := cid,
        note := ln.2,
        source_tweet_id := bookmark.tweet_id }))

/-- The two external collaborators the sync service calls.  Each call
either returns normally (`Except.ok`) or raises (`Except.error`, carrying
the exception's message `str(e)`).  Both Python call sites catch every
exception, so an `Except`-valued oracle models the call faithfully. -/
structure Collaborators where
  create_raindrop : RaindropCreateRequest → Except String Raindrop
  delete_bookmark : String → Except String Bool

/-- Trace of outbound collaborator calls made during a run, in order. -/
structure CallTrace where
  creates : List RaindropCreateRequest := []
  deletes : List String := []
deriving DecidableEq, Repr

/-- The state threaded through the per-bookmark loop of
`SyncService.sync`: the state store, the accumulating result, and the
call trace. -/
structure RunState where
  state : SyncState
  result : SyncResult
  trace : CallTrace
deriving Repr

/-- The inner `for request in requests` loop of `SyncService.sync`:
attempt each creation in order; on the first raise, record the error and
stop.  Returns `(created_links, calls made, error message if any)`. -/
def attemptCreates (collab : Collaborators) (tid : String) :
    List RaindropCreateRequest →
      List String × List RaindropCreateRequest × Option String
  | [] => ([], [], none)
  | r :: rs =>
    match collab.create_raindrop r with
    | .ok created =>
      let rest := attemptCreates collab tid rs
      (created.link :: rest.1, r :: rest.2.1, rest.2.2)
    | .error e =>
      ([], [r], some ("[" ++ tid ++ "] Failed to create " ++ r.link ++ ": " ++ e))

/-- One iteration of the `for idx, bookmark in enumerate(bookmarks)` loop
of `SyncService.sync` (sync/service.py lines 182-272). -/
def processBookmark (collab : Collaborators) (settings : SyncSettings)
    (now : Int) (rs : RunState) (b : BookmarkItem) : RunState :=
  if rs.state.is_synced b.tweet_id then
    { rs with result := { rs.result with
        already_synced := rs.result.already_synced + 1 } }
  else
    match create_raindrop_requests b settings with
    | .error e =>
      { rs with result :=
          { (rs.result.add_error ("[" ++ b.tweet_id ++ "] " ++ e)) with
            failed := rs.result.failed + 1 } }
    | .ok requests =>
      if settings.dry_run then
        { rs with result := { rs.result with
            newly_synced := rs.result.newly_synced + 1 } }
      else
        match attemptCreates collab b.tweet_id requests with
        | (created_links, calls, err) =>
          let rs1 : RunState :=
            { rs with trace := { rs.trace with
                creates := rs.trace.creates ++ calls } }
          match err with
          | some msg =>
            { rs1 with result :=
                { (rs1.result.add_error msg) with
                  failed := rs1.result.failed + 1 } }
          | none =>
            if settings.remove_from_x then
              match collab.delete_bookmark b.tweet_id with
              | .ok _ =>
                { state := rs1.state.mark_synced b.tweet_id created_links true now,
                  result := { rs1.result with
                    deleted_from_x := rs1.result.deleted_from_x + 1,
                    newly_synced := rs1.result.newly_synced + 1 },
                  trace := { rs1.trace with
                    deletes := rs1.trace.deletes ++ [b.tweet_id] } }
              | .error e =>
                { state := rs1.state.mark_synced b.tweet_id created_links false now,
                  result := { (rs1.result.add_error
                      ("[" ++ b.tweet_id ++ "] Failed to delete from X: " ++ e)) with
                    newly_synced := rs1.result.newly_synced + 1 },
                  trace := { rs1.trace with
                    deletes := rs1.trace.deletes ++ [b.tweet_id] } }
            else
              { state := rs1.state.mark_synced b.tweet_id created_links false now,
                result := { rs1.result with
                  newly_synced := rs1.result.newly_synced + 1 },
                trace := rs1.trace }

/-- `SyncService.sync`: the fetched bookmarks are processed in order by
`processBookmark`; `total_bookmarks` is set up front to the fetched
count.  The fetched sequence, the collaborators' outcomes and the clock
are parameters; the state store is `st0` as left by `state.load()`. -/
def SyncService.sync (collab : Collaborators) (settings : SyncSettings)
    (now : Int) (bookmarks : List BookmarkItem) (st0 : SyncState) : RunState :=
  bookmarks.foldl (processBookmark collab settings now)
    { state := st0,
      result := { total_bookmarks := bookmarks.length },
      trace := {} }

/-! ## x/client.py: rate-limit handling -/

/-- `DEFAULT_RATE_LIMIT_WAIT_SECONDS` from x/client.py. -/
def DEFAULT_RATE_LIMIT_WAIT_SECONDS : Int := 60

/-- `MAX_RATE_LIMIT_WAIT_SECONDS` from x/client.py (15 minutes). -/
def MAX_RATE_LIMIT_WAIT_SECONDS : Int := 900

/-- `MAX_RETRIES` from x/client.py. -/
def MAX_RETRIES : Nat := 5

/-- Python `int(s)` on a string: optional surrounding ASCII whitespace,
an optional sign, then one or more digits; `none` models the
`ValueError` raised otherwise. -/
def pyIntOfString (s : String) : Option Int :=
  let isWs : Char → Bool := fun c =>
    c = ' ' || c = '\t' || c = '\n' || c = '\r' ||
    c = Char.ofNat 11 || c = Char.ofNat 12
  let cs := (s.data.dropWhile isWs).reverse.dropWhile isWs |>.reverse
  let core : List Char × Bool :=
    match cs with
    | '-' :: rest => (rest, true)
    | '+' :: rest => (rest, false)
    | rest => (rest, false)
  if core.1 ≠ [] ∧ core.1.all (fun c => c.isDigit) then
    let n : Nat := core.1.foldl (fun acc c => acc * 10 + (c.toNat - 48)) 0
    some (if core.2 then -(n : Int) else (n : Int))
  else
    none

/-- The rate-limit headers of an HTTP response that
`XClient._get_rate_limit_wait_time` consults (`headers.get` yields
`none` for an absent header), together with the status code used by
`XClient._make_request`. -/
structure HttpResponse where
  status_code : Nat
  rate_limit_reset : Option String := none
  retry_after : Option String := none
deriving DecidableEq, Repr

/-- The `Retry-After` half of `XClient._get_rate_limit_wait_time`:
`min(int(retry_after), MAX_RATE_LIMIT_WAIT_SECONDS)` when the header is
truthy and parses, else the fixed default. -/
def retryAfterWait (response : HttpResponse) : Int :=
  if pyTruthy response.retry_after then
    match pyIntOfString (response.retry_after.getD "") with
    | some v => min v MAX_RATE_LIMIT_WAIT_SECONDS
    | none => DEFAULT_RATE_LIMIT_WAIT_SECONDS
  else
    DEFAULT_RATE_LIMIT_WAIT_SECONDS

/-- `XClient._get_rate_limit_wait_time` with `int(time.time())` passed
explicitly as `now`: try the `x-rate-limit-reset` header
(`min(max(0, reset - now) + 5, 900)`), then `Retry-After`, then the
60-second default. -/
def get_rate_limit_wait_time (response : HttpResponse) (now : Int) : Int :=
  if pyTruthy response.rate_limit_reset then
    match pyIntOfString (response.rate_limit_reset.getD "") with
    | some reset_time => min (max 0 (reset_time - now) + 5) MAX_RATE_LIMIT_WAIT_SECONDS
    | none => retryAfterWait response
  else
    retryAfterWait response

/-- Outcome of `XClient._make_request`: the returned response, or the
status of the `httpx.HTTPStatusError` raised by `raise_for_status`,
together with the number of requests issued and the sleeps performed. -/
structure RequestRun where
  outcome : Except Nat HttpResponse
  requests_made : Nat
  sleeps : List Int
deriving Repr

/-- The `while True` loop of `XClient._make_request`.  `respond i` is the
response the transport returns to the `i`-th issuance of this request
(the same request is re-sent on every retry); `budget` is the number of
429 responses the loop will still tolerate (initially `MAX_RETRIES`; the
Python counter `retries` exceeds `MAX_RETRIES` exactly when the budget
is exhausted, and then `raise_for_status` raises on the 429). -/
def makeRequestLoop (respond : Nat → HttpResponse) (now : Int) :
    Nat → Nat → List Int → RequestRun
  | idx, budget, sleeps =>
    let response := respond idx
    if response.status_code = 429 then
      match budget with
      | 0 => { outcome := .error 429, requests_made := idx + 1, sleeps := sleeps }
      | b + 1 =>
        let wait := get_rate_limit_wait_time response now
        makeRequestLoop respond now (idx + 1) b (sleeps ++ [wait])
    else if 400 ≤ response.status_code then
      { outcome := .error response.status_code, requests_made := idx + 1,
        sleeps := sleeps }
    else
      { outcome := .ok response, requests_made := idx + 1, sleeps := sleeps }

/-- `XClient._make_request` on a single logical request. -/
def make_request (respond : Nat → HttpResponse) (now : Int) : RequestRun :=
  makeRequestLoop respond now 0 MAX_RETRIES []

/-! ## x/client.py: external-URL extraction -/

/-- Python `\s` (ASCII part; the headers and tweet texts concerned are
ASCII-spaced). -/
def isPySpace (c : Char) : Bool :=
  c = ' ' || c = '\t' || c = '\n' || c = '\r' ||
  c = Char.ofNat 11 || c = Char.ofNat 12

/-- Try to match `URL_PATTERN = https?://(?!t\.co)[^\s]+` at the start of
`cs`; on success return the matched characters and the remaining input.
The optional `s` never needs backtracking: when the input starts with
`https://`, the `http://` alternative cannot match at the same position. -/
def tryMatchUrl (cs : List Char) : Option (List Char × List Char) :=
  let after : Nat → Option (List Char × List Char) := fun n =>
    let rest := cs.drop n
    if ['t', '.', 'c', 'o'].isPrefixOf rest then none
    else
      let body := rest.takeWhile (fun c => !isPySpace c)
      if body.isEmpty then none
      else some (cs.take n ++ body, rest.drop body.length)
  if ['h', 't', 't', 'p', 's', ':', '/', '/'].isPrefixOf cs then after 8
  else if ['h', 't', 't', 'p', ':', '/', '/'].isPrefixOf cs then after 7
  else none

/-- `re.findall` of `URL_PATTERN` over the text: scan left to right,
taking non-overlapping matches.  On a match at the current position the
scan resumes after the match; otherwise it advances one character.  Each
step consumes at least one character, so `fuel := length` suffices. -/
def findallUrls : Nat → List Char → List String
  | 0, _ => []
  | _, [] => []
  | fuel + 1, c :: cs =>
    match tryMatchUrl (c :: cs) with
    | some (m, rest) => String.mk m :: findallUrls fuel rest
    | none => findallUrls fuel cs

/-- `URL_PATTERN.findall(text)`. -/
def url_pattern_findall (text : String) : List String :=
  findallUrls text.data.length text.data

/-- One entry of `entities["urls"]` (the two fields read by
`_extract_external_urls`; `dict.get` yields `none` when absent). -/
structure UrlEntity where
  expanded_url : Option String := none
  unwrapped_url : Option String := none
deriving DecidableEq, Repr

/-- The parts of a raw tweet payload read by `_extract_external_urls`:
`entities_urls = some l` models `"urls" in tweet.get("entities", {})`
holding list `l`; `none` models the key being absent. -/
structure TweetPayload where
  text : String := ""
  entities_urls : Option (List UrlEntity) := none
deriving DecidableEq, Repr

/-- The per-entity filter of `_extract_external_urls`:
`expanded and not expanded.startswith("https://t.co") and
not any(domain in expanded for domain in ["twitter.com", "x.com", "t.co"])`. -/
def entityKept (expanded : String) : Bool :=
  !(pyStartsWith expanded "https://t.co") &&
  !(pyIn "twitter.com" expanded || pyIn "x.com" expanded || pyIn "t.co" expanded)

/-- The entity pass of `_extract_external_urls`: the `for url_entity in
entities["urls"]` loop appending each kept expanded URL. -/
def entityExternalUrls (urls : List UrlEntity) : List String :=
  urls.foldl (fun acc u =>
    match pyOr u.expanded_url u.unwrapped_url with
    | some expanded =>
      if !expanded.data.isEmpty && entityKept expanded then acc ++ [expanded]
      else acc
    | none => acc) []

/-- The filter of the text-fallback pass:
`not any(domain in url for domain in ["twitter.com", "x.com"])`. -/
def textUrlKept (url : String) : Bool :=
  !(pyIn "twitter.com" url || pyIn "x.com" url)

/-- `XClient._extract_external_urls`: the structured-entity pass, with
the raw-text regex fallback used only when the entity pass yields
nothing. -/
def extract_external_urls (tweet : TweetPayload) : List String :=
  let external_urls :=
    match tweet.entities_urls with
    | some urls => entityExternalUrls urls
    | none => []
  if external_urls.isEmpty then
    (url_pattern_findall tweet.text).filter textUrlKept
  else
    external_urls

/-! ## state.py: SyncState.load over a JSON model

`load` runs `json.load` and then walks the document with Python dynamic
operations; its `except` clause catches exactly
`(json.JSONDecodeError, KeyError, ValueError)`.  The walk is embedded
over a JSON value type with each dynamic operation returning
`Except PyExc`, so that which exception types can escape is provable. -/

/-- A JSON document as produced by `json.load`. -/
inductive Json where
  | null
  | bool (b : Bool)
  | num (n : Int)
  | str (s : String)
  | arr (xs : List Json)
  | obj (fields : List (String × Json))

/-- The Python exception classes that the operations in
`SyncState.load` can raise. -/
inductive PyExc where
  | jsonDecodeError
  | keyError
  | valueError
  | typeError
  | attributeError
deriving DecidableEq, Repr

/-- The exception classes named in the `except` clause of
`SyncState.load`: `(json.JSONDecodeError, KeyError, ValueError)`.
(Pydantic's `ValidationError` is a `ValueError`.) -/
def caughtByLoad : PyExc → Bool
  | .jsonDecodeError => true
  | .keyError => true
  | .valueError => true
  | .typeError => false
  | .attributeError => false

/-- Python `obj[k]` with a string key: dict lookup (`KeyError` when the
key is absent); a `TypeError` on every non-dict value (lists and strings
reject string indices, the rest are not subscriptable). -/
def pySubscript (j : Json) (k : String) : Except PyExc Json :=
  match j with
  | .obj fields =>
    match fields.find? (fun p => p.1 = k) with
    | some p => .ok p.2
    | none => .error .keyError
  | _ => .error .typeError

/-- Python `obj.get(k, default)`: dict lookup with default; an
`AttributeError` on every non-dict value (no `get` attribute). -/
def pyDictGet (j : Json) (k : String) (d : Json) : Except PyExc Json :=
  match j with
  | .obj fields =>
    match fields.find? (fun p => p.1 = k) with
    | some p => .ok p.2
    | none => .ok d
  | _ => .error .attributeError

/-- Python `obj.items()`: an `AttributeError` on every non-dict value. -/
def pyItems (j : Json) : Except PyExc (List (String × Json)) :=
  match j with
  | .obj fields => .ok fields
  | _ => .error .attributeError

/-- Python `datetime.fromisoformat(v)`: a `TypeError` unless `v` is a
string, a `ValueError` when the string does not parse; the ISO-8601
parser itself is the stdlib's and is passed in as `iso`. -/
def pyFromIsoformat (iso : String → Option Int) (v : Json) :
    Except PyExc Int :=
  match v with
  | .str s =>
    match iso s with
    | some t => .ok t
    | none => .error .valueError
  | _ => .error .typeError

/-- Pydantic validation of a `str` field (`ValidationError` is a
`ValueError`). -/
def pydanticStr (v : Json) : Except PyExc String :=
  match v with
  | .str s => .ok s
  | _ => .error .valueError

/-- Pydantic validation of a `list[str]` field. -/
def pydanticStrList (v : Json) : Except PyExc (List String) :=
  match v with
  | .arr xs => xs.mapM pydanticStr
  | _ => .error .valueError

/-- Pydantic validation of a `bool` field. -/
def pydanticBool (v : Json) : Except PyExc Bool :=
  match v with
  | .bool b => .ok b
  | _ => .error .valueError

/-- The per-record body of the `for tweet_id, record in
data.get("synced", {}).items()` loop: the subscript/`get`/`fromisoformat`
argument evaluations in source order, then the `SyncedBookmark(...)`
pydantic validation. -/
def loadRecord (iso : String → Option Int) (record : Json) :
    Except PyExc SyncedBookmark := do
  let tidJ ← pySubscript record "tweet_id"
  let linksJ ← pyDictGet record "raindrop_links" (Json.arr [])
  let syncedAtJ ← pySubscript record "synced_at"
  let syncedAt ← pyFromIsoformat iso syncedAtJ
  let delJ ← pyDictGet record "deleted_from_x" (Json.bool false)
  let tid ← pydanticStr tidJ
  let links ← pydanticStrList linksJ
  let del ← pydanticBool delJ
  .ok { tweet_id := tid, raindrop_links := links, synced_at := syncedAt,
        deleted_from_x := del }

/-- The `try` body of `SyncState.load` after `json.load` succeeded with
document `data`. -/
def loadBody (iso : String → Option Int) (data : Json) :
    Except PyExc (List (String × SyncedBookmark)) := do
  let syncedJ ← pyDictGet data "synced" (Json.obj [])
  let items ← pyItems syncedJ
  items.foldlM (fun acc kv => do
    let r ← loadRecord iso kv.2
    pure (dictInsert acc kv.1 r)) []

/-- `SyncState.load` on an existing state file, starting from a fresh
store.  `content = none` models `json.load` raising `JSONDecodeError`
(syntactically invalid file); `some data` a well-formed document.  The
result is the final `_synced` store, or the exception that escapes the
`except (json.JSONDecodeError, KeyError, ValueError)` clause. -/
def SyncState.load_model (iso : String → Option Int)
    (content : Option Json) : Except PyExc (List (String × SyncedBookmark)) :=
  match content with
  | none => .ok []
  | some data =>
    match loadBody iso data with
    | .ok recs => .ok recs
    | .error e => if caughtByLoad e then .ok [] else .error e

/-! ## C9: the spec's host-based URL-exclusion policy (for comparison)

Modelled from the spec: "excluding any URL whose host matches the source
platform's own domains or its shortener domain", with the same policy on
the raw-text fallback.  The code under src/ uses substring containment
instead; this definition follows the spec's words so the two can be
compared. -/

/-- The characters after the first `://`. -/
def afterSchemeSep : List Char → List Char
  | [] => []
  | ':' :: '/' :: '/' :: rest => rest
  | _ :: rest => afterSchemeSep rest

/-- The host component of a URL: the authority up to the first
`/`, `?`, `#` or `:`. -/
def urlHost (u : String) : String :=
  String.mk ((afterSchemeSep u.data).takeWhile
    (fun c => c ≠ '/' && c ≠ '?' && c ≠ '#' && c ≠ ':'))

/-- A host matches a domain when it equals it or is a subdomain of it. -/
def hostMatchesDomain (host domain : String) : Bool :=
  host = domain || ("." ++ domain).data.isSuffixOf host.data

/-- Modelled from the spec: a URL is excluded when its host matches
`twitter.com`, `x.com` or `t.co`. -/
def specHostExcluded (u : String) : Bool :=
  hostMatchesDomain (urlHost u) "twitter.com" ||
  hostMatchesDomain (urlHost u) "x.com" ||
  hostMatchesDomain (urlHost u) "t.co"

/-- Modelled from the spec: external-URL extraction with host-based
domain exclusion on both the entity pass and the raw-text fallback. -/
def spec_extract_external_urls (tweet : TweetPayload) : List String :=
  let ents :=
    match tweet.entities_urls with
    | some urls =>
      urls.foldl (fun acc u =>
        match pyOr u.expanded_url u.unwrapped_url with
        | some e =>
          if !e.data.isEmpty && !specHostExcluded e then acc ++ [e] else acc
        | none => acc) []
    | none => []
  if ents.isEmpty then
    (url_pattern_findall tweet.text).filter (fun u => !specHostExcluded u)
  else
    ents

/-! ## Theorems -/

/-- C1: link resolution is a pure function of the bookmark and the two
configuration enums: permalink mode yields exactly the permalink with no
note; first-external mode yields the first external URL with a note
referencing the permalink when external URLs exist, else the permalink
with no note; both/one-external-plus-note yields the first external URL
with a note referencing the permalink when external URLs exist, else the
permalink with no note; both/two-raindrops yields the external pair then
the permalink pair, in that order, when external URLs exist, else the
permalink with no note. -/
theorem resolve_links_policy (b : BookmarkItem) (bb : BothBehavior) :
    resolve_links b .permalink bb = [(b.permalink, none)] ∧
    (b.external_urls = [] →
      resolve_links b .first_external_url bb = [(b.permalink, none)] ∧
      resolve_links b .both .one_external_plus_note = [(b.permalink, none)] ∧
      resolve_links b .both .two_raindrops = [(b.permalink, none)]) ∧
    (∀ u us, b.external_urls = u :: us →
      resolve_links b .first_external_url bb =
        [(u, some ("From: " ++ b.permalink))] ∧
      resolve_links b .both .one_external_plus_note =
        [(u, some ("X Post: " ++ b.permalink))] ∧
      resolve_links b .both .two_raindrops =
        [(u, some ("From: " ++ b.permalink)), (b.permalink, none)]) := by
  refine ⟨rfl, fun h => ?_, fun u us h => ?_⟩ <;>
    simp [resolve_links, h]

/-- A bookmark with no external URLs, for concrete evaluation. -/
def bmNoExt : BookmarkItem :=
  { tweet_id := "1", text := "t", permalink := "https://x.com/i/status/1" }

/-- A bookmark with two external URLs, for concrete evaluation. -/
def bmExt : BookmarkItem :=
  { tweet_id := "2", text := "t", permalink := "P",
    external_urls := ["E", "E2"] }

/-- Witness for C1 at concrete bookmarks, covering the empty and
non-empty external-URL cases. -/
theorem resolve_links_policy_witness :
    resolve_links bmNoExt .first_external_url .two_raindrops =
      [("https://x.com/i/status/1", none)] ∧
    resolve_links bmExt .both .two_raindrops =
      [("E", some ("From: " ++ "P")), ("P", none)] :=
  ⟨((resolve_links_policy bmNoExt .two_raindrops).2.1 rfl).1,
   ((resolve_links_policy bmExt .two_raindrops).2.2 "E" ["E2"] rfl).2.2⟩

/-- C8: `is_expired` is true exactly when the current instant is at or
past 60 seconds before the stored expiry instant; a credential expiring
59 seconds from now is expired, one expiring 61 seconds from now is
not. -/
theorem is_expired_boundary (t : OAuth2Token) (now : Int) :
    (t.is_expired now = true ↔ t.expires_at - 60 ≤ now) ∧
    ({ t with expires_at := now + 59 } : OAuth2Token).is_expired now = true ∧
    ({ t with expires_at := now + 61 } : OAuth2Token).is_expired now = false := by
  refine ⟨by simp [OAuth2Token.is_expired], ?_, ?_⟩ <;>
    simp [OAuth2Token.is_expired]

/-- A 150-character display name. -/
def longDisplayName : String := String.mk (List.replicate 150 'a')

/-- A bookmark whose author prefix alone exceeds 150 characters while
its body is 2 characters. -/
def titleCapCex : BookmarkItem :=
  { tweet_id := "1", text := "hi", author_username := some "u",
    author_name := some longDisplayName, permalink := "p" }

set_option maxRecDepth 4000 in
/-- C5 counterexample: the claim says every title is at most 150
characters, but with a 150-character display name and a 2-character
body `get_title` returns the unclamped name-and-username title of length
159. -/
theorem get_title_cap_counterexample :
    150 < pyLen titleCapCex.get_title := by decide

/-- C5 amended: the 150-character cap holds when no author username is
known (bare body truncated to 150) and when an author prefix is present
with a body longer than 100 characters (prefix, `": "`, first 100 body
characters and an ellipsis, the whole clamped to 150); with an author
prefix and a body of at most 100 characters the title is the unclamped
concatenation, which can exceed 150 characters. -/
theorem get_title_spec (b : BookmarkItem) :
    (pyTruthy b.author_username = false →
      b.get_title = pySlice b.text 150 ∧ pyLen b.get_title ≤ 150) ∧
    (pyTruthy b.author_username = true →
      (100 < pyLen b.text →
        b.get_title =
          pySlice (b.titleAuthorPfx ++ ": " ++ pySlice b.text 100 ++ "...") 150 ∧
        pyLen b.get_title ≤ 150) ∧
      (pyLen b.text ≤ 100 →
        b.get_title = b.titleAuthorPfx ++ ": " ++ b.text)) := by
  have hslice : ∀ (s : String) (n : Nat), pyLen (pySlice s n) ≤ n := by
    intro s n
    unfold pyLen pySlice
    rw [List.length_take]
    omega
  constructor
  · intro h
    unfold BookmarkItem.get_title
    simp only [h, Bool.false_eq_true, if_false]
    by_cases hl : pyLen b.text > 150
    · simp only [hl, if_true]
      exact ⟨by trivial, hslice _ _⟩
    · simp only [hl, if_false]
      refine ⟨?_, by unfold pyLen at hl ⊢; omega⟩
      unfold pySlice
      rw [List.take_of_length_le (by unfold pyLen at hl; omega)]
  · intro h
    unfold BookmarkItem.get_title
    simp only [h, if_true]
    constructor
    · intro hlen
      simp only [hlen, if_true]
      exact ⟨by trivial, hslice _ _⟩
    · intro hlen
      have hng : ¬pyLen b.text > 100 := by omega
      simp only [hng, if_false]

/-- A bookmark with no author. -/
def titleNoAuthorBm : BookmarkItem :=
  { tweet_id := "1", text := "hello", permalink := "p" }

/-- A bookmark with an author and a 120-character body. -/
def titleLongBodyBm : BookmarkItem :=
  { tweet_id := "2", text := String.mk (List.replicate 120 'b'),
    author_username := some "u", permalink := "p" }

/-- A bookmark with an author and a short body. -/
def titleShortBodyBm : BookmarkItem :=
  { tweet_id := "3", text := "hi", author_username := some "u",
    permalink := "p" }

/-- Witness for C5 (amended) at concrete bookmarks, one per branch. -/
theorem get_title_spec_witness :
    pyLen titleNoAuthorBm.get_title ≤ 150 ∧
    titleLongBodyBm.get_title =
      pySlice (titleLongBodyBm.titleAuthorPfx ++ ": " ++
        pySlice titleLongBodyBm.text 100 ++ "...") 150 ∧
    titleShortBodyBm.get_title =
      titleShortBodyBm.titleAuthorPfx ++ ": " ++ titleShortBodyBm.text :=
  ⟨((get_title_spec titleNoAuthorBm).1 (by decide)).2,
   (((get_title_spec titleLongBodyBm).2 (by decide)).1 (by decide)).1,
   ((get_title_spec titleShortBodyBm).2 (by decide)).2 (by decide)⟩

/-- C6 (code bug): the `except` clause of `SyncState.load` catches
`JSONDecodeError`, `KeyError` and `ValueError`, so a syntactically
invalid file does fall back to the empty store — but a file holding the
valid JSON document `[]` makes `data.get("synced", {})` raise
`AttributeError`, which escapes the load call: a corrupt state file can
crash a sync run.  Stated for every ISO-8601 parser, which this input
never reaches. -/
theorem load_model_toplevel_array_escapes :
    (∀ iso, SyncState.load_model iso (some (Json.arr [])) =
      .error .attributeError) ∧
    (∀ iso, SyncState.load_model iso none = .ok []) ∧
    (∀ iso, caughtByLoad .attributeError = false ∧
      SyncState.load_model iso
        (some (Json.obj [("synced",
          Json.obj [("tweet1", Json.obj [("bad", Json.str "data")])])])) =
        .ok []) :=
  ⟨fun _ => rfl, fun _ => rfl, fun _ => ⟨rfl, rfl⟩⟩

/-- A tweet payload whose only entity URL has host `spacex.com`. -/
def spacexTweet : TweetPayload :=
  { text := "",
    entities_urls := some [{ expanded_url := some "https://spacex.com/starship" }] }

/-- C9 counterexample: the claim says the extraction excludes exactly
the URLs whose *host* matches `twitter.com`, `x.com` or `t.co`, but the
code tests substring containment: `"x.com" in "https://spacex.com/starship"`
holds, so the code drops a URL whose host is `spacex.com` (and the
empty-text fallback then yields nothing), while the host-based policy
keeps it. -/
theorem extract_external_urls_counterexample :
    extract_external_urls spacexTweet = [] ∧
    spec_extract_external_urls spacexTweet = ["https://spacex.com/starship"] ∧
    specHostExcluded "https://spacex.com/starship" = false := by
  refine ⟨?_, ?_, ?_⟩ <;> decide

/-- The entity filter of `_extract_external_urls` as a `filterMap`
step:  keep `expanded_url or unwrapped_url` when truthy, not starting
with `https://t.co`, and containing none of `twitter.com`, `x.com`,
`t.co` as substrings. -/
def entityKeep (u : UrlEntity) : Option String :=
  match pyOr u.expanded_url u.unwrapped_url with
  | some e => if !e.data.isEmpty && entityKept e then some e else none
  | none => none

lemma entityExternalUrls_step (acc : List String) (u : UrlEntity) :
    (match pyOr u.expanded_url u.unwrapped_url with
      | some expanded =>
        if !expanded.data.isEmpty && entityKept expanded then acc ++ [expanded]
        else acc
      | none => acc) = acc ++ (entityKeep u).toList := by
  unfold entityKeep
  cases pyOr u.expanded_url u.unwrapped_url with
  | none => simp
  | some e => cases hc : (!e.data.isEmpty && entityKept e) <;> simp [hc]

lemma entityExternalUrls_eq_filterMap (urls : List UrlEntity) :
    entityExternalUrls urls = urls.filterMap entityKeep := by
  unfold entityExternalUrls
  suffices h : ∀ (l : List UrlEntity) (acc : List String),
      l.foldl (fun acc u =>
        match pyOr u.expanded_url u.unwrapped_url with
        | some expanded =>
          if !expanded.data.isEmpty && entityKept expanded then acc ++ [expanded]
          else acc
        | none => acc) acc = acc ++ l.filterMap entityKeep by
    simpa using h urls []
  intro l
  induction l with
  | nil => simp
  | cons u t ih =>
    intro acc
    rw [List.foldl_cons, entityExternalUrls_step, ih, List.filterMap_cons]
    cases entityKeep u <;> simp

/-- C9 amended: the extracted list consists exactly of the structured
entity URLs (`expanded_url`, else `unwrapped_url` when the former is
falsy) that are truthy, do not start with `https://t.co`, and contain
none of `twitter.com`, `x.com`, `t.co` as *substrings*, in order; only
when that pass yields nothing does it consist of the regex matches in
the raw text that contain neither `twitter.com` nor `x.com` as
substrings. -/
theorem extract_external_urls_spec (tweet : TweetPayload) :
    extract_external_urls tweet =
      (if (tweet.entities_urls.getD []).filterMap entityKeep = [] then
        (url_pattern_findall tweet.text).filter textUrlKept
      else
        (tweet.entities_urls.getD []).filterMap entityKeep) := by
  unfold extract_external_urls
  cases h : tweet.entities_urls with
  | none => simp
  | some urls =>
    simp only [Option.getD_some, entityExternalUrls_eq_filterMap]
    rcases urls.filterMap entityKeep with _ | _ <;> simp

lemma pyIntOfString_some_ne_nil {s : String} {t : Int}
    (h : pyIntOfString s = some t) : s.data.isEmpty = false := by
  cases hd : s.data with
  | nil =>
    unfold pyIntOfString at h
    rw [hd] at h
    simp at h
  | cons c cs => rfl

lemma pyTruthy_of_parses {s : String} {t : Int}
    (h : pyIntOfString s = some t) : pyTruthy (some s) = true := by
  have hne := pyIntOfString_some_ne_nil h
  simp [pyTruthy, hne]

lemma retryAfterWait_parses {r : HttpResponse} {s : String} {v : Int}
    (hra : r.retry_after = some s) (hp : pyIntOfString s = some v) :
    retryAfterWait r = min v MAX_RATE_LIMIT_WAIT_SECONDS := by
  unfold retryAfterWait
  rw [hra, if_pos (pyTruthy_of_parses hp)]
  simp [hp]

lemma retryAfterWait_default {r : HttpResponse}
    (h : ∀ s1, r.retry_after = some s1 → pyIntOfString s1 = none) :
    retryAfterWait r = DEFAULT_RATE_LIMIT_WAIT_SECONDS := by
  unfold retryAfterWait
  cases hra : r.retry_after with
  | none => simp [pyTruthy]
  | some s1 =>
    cases hb : pyTruthy (some s1) with
    | false => simp [hb]
    | true => simp [hb, h s1 hra]

lemma get_rate_limit_wait_time_no_reset {r : HttpResponse} {now : Int}
    (h : ∀ s0, r.rate_limit_reset = some s0 → pyIntOfString s0 = none) :
    get_rate_limit_wait_time r now = retryAfterWait r := by
  unfold get_rate_limit_wait_time
  cases hr : r.rate_limit_reset with
  | none => simp [pyTruthy]
  | some s0 =>
    cases hb : pyTruthy (some s0) with
    | false => simp [hb]
    | true => simp [hb, h s0 hr]

/-- The `while True` loop when every issuance of the request is answered
429: the budget is exhausted, each tolerated 429 causes one computed
sleep, and `raise_for_status` surfaces the final 429. -/
lemma makeRequestLoop_all429 (respond : Nat → HttpResponse) (now : Int) :
    ∀ (budget idx : Nat) (sleeps : List Int),
      (∀ i, i ≤ budget → (respond (idx + i)).status_code = 429) →
      makeRequestLoop respond now idx budget sleeps =
        { outcome := .error 429, requests_made := idx + budget + 1,
          sleeps := sleeps ++ (List.range budget).map
            (fun i => get_rate_limit_wait_time (respond (idx + i)) now) } := by
  intro budget
  induction budget with
  | zero =>
    intro idx sleeps h
    have h0 : (respond idx).status_code = 429 := by simpa using h 0 (by omega)
    rw [makeRequestLoop, if_pos h0]
    simp
  | succ b ih =>
    intro idx sleeps h
    have h0 : (respond idx).status_code = 429 := by simpa using h 0 (by omega)
    rw [makeRequestLoop, if_pos h0]
    have hrec := ih (idx + 1)
      (sleeps ++ [get_rate_limit_wait_time (respond idx) now])
      (fun i hi => by
        have := h (i + 1) (by omega)
        simpa [Nat.add_assoc, Nat.add_comm 1 i] using this)
    rw [hrec]
    have hfun : (fun i => get_rate_limit_wait_time (respond (idx + 1 + i)) now) =
        (fun i => get_rate_limit_wait_time (respond (idx + (i + 1))) now) := by
      funext i
      rw [show idx + 1 + i = idx + (i + 1) by omega]
    rw [hfun]
    have hreq : idx + 1 + b + 1 = idx + (b + 1) + 1 := by omega
    rw [hreq, List.range_succ_eq_map, List.map_cons, List.map_map,
      List.append_assoc]
    rfl

/-- The `while True` loop when the first `k ≤ budget` issuances are
answered 429 and the `k`-th retry is answered with a non-429 status:
the loop retries transparently `k` times, sleeping the computed wait
each time, then returns the response (or raises for a non-429 error
status). -/
lemma makeRequestLoop_first_settled (respond : Nat → HttpResponse) (now : Int) :
    ∀ (k budget idx : Nat) (sleeps : List Int),
      k ≤ budget →
      (∀ i, i < k → (respond (idx + i)).status_code = 429) →
      (respond (idx + k)).status_code ≠ 429 →
      makeRequestLoop respond now idx budget sleeps =
        { outcome :=
            if 400 ≤ (respond (idx + k)).status_code then
              .error (respond (idx + k)).status_code
            else
              .ok (respond (idx + k)),
          requests_made := idx + k + 1,
          sleeps := sleeps ++ (List.range k).map
            (fun i => get_rate_limit_wait_time (respond (idx + i)) now) } := by
  intro k
  induction k with
  | zero =>
    intro budget idx sleeps _ _ hstop
    have hstop' : (respond idx).status_code ≠ 429 := by simpa using hstop
    cases budget with
    | zero =>
      rw [makeRequestLoop, if_neg hstop']
      by_cases h4 : 400 ≤ (respond idx).status_code
      · rw [if_pos h4, if_pos (by simpa using h4)]
        simp
      · rw [if_neg h4, if_neg (by simpa using h4)]
        simp
    | succ b =>
      rw [makeRequestLoop, if_neg hstop']
      by_cases h4 : 400 ≤ (respond idx).status_code
      · rw [if_pos h4, if_pos (by simpa using h4)]
        simp
      · rw [if_neg h4, if_neg (by simpa using h4)]
        simp
  | succ j ih =>
    intro budget idx sleeps hk h429 hstop
    obtain ⟨b, rfl⟩ : ∃ b, budget = b + 1 := ⟨budget - 1, by omega⟩
    have h0 : (respond idx).status_code = 429 := by simpa using h429 0 (by omega)
    rw [makeRequestLoop, if_pos h0]
    have hrec := ih b (idx + 1)
      (sleeps ++ [get_rate_limit_wait_time (respond idx) now])
      (by omega)
      (fun i hi => by
        have := h429 (i + 1) (by omega)
        simpa [Nat.add_assoc, Nat.add_comm 1 i] using this)
      (by
        have : idx + 1 + j = idx + (j + 1) := by omega
        rw [this]
        exact hstop)
    rw [hrec]
    have hidx : idx + 1 + j = idx + (j + 1) := by omega
    have hfun : (fun i => get_rate_limit_wait_time (respond (idx + 1 + i)) now) =
        (fun i => get_rate_limit_wait_time (respond (idx + (i + 1))) now) := by
      funext i
      rw [show idx + 1 + i = idx + (i + 1) by omega]
    rw [hidx, hfun]
    rw [List.range_succ_eq_map, List.map_cons, List.map_map,
      List.append_assoc]
    rfl

/-- C7: on a 429 response the wait is computed in priority order — the
reset-timestamp header as `min(max(0, reset - now) + 5, 900)` when it
parses as an integer, else the retry-after header as `min(retry, 900)`
when it parses, else the fixed 60-second default — and is always at
most 900 seconds; the request is retried transparently after each
tolerated 429, with one computed sleep per retry, up to 5 retries
before the final 429 is surfaced as a hard failure on the 6th request;
a non-429 error status (≥ 400) propagates after the request that
received it without further retries. -/
theorem rate_limit_handling (respond : Nat → HttpResponse)
    (resp : HttpResponse) (now : Int) :
    (∀ s t, resp.rate_limit_reset = some s → pyIntOfString s = some t →
      get_rate_limit_wait_time resp now =
        min (max 0 (t - now) + 5) MAX_RATE_LIMIT_WAIT_SECONDS) ∧
    (∀ s v, (∀ s0, resp.rate_limit_reset = some s0 → pyIntOfString s0 = none) →
      resp.retry_after = some s → pyIntOfString s = some v →
      get_rate_limit_wait_time resp now = min v MAX_RATE_LIMIT_WAIT_SECONDS) ∧
    ((∀ s0, resp.rate_limit_reset = some s0 → pyIntOfString s0 = none) →
     (∀ s1, resp.retry_after = some s1 → pyIntOfString s1 = none) →
      get_rate_limit_wait_time resp now = DEFAULT_RATE_LIMIT_WAIT_SECONDS) ∧
    (get_rate_limit_wait_time resp now ≤ MAX_RATE_LIMIT_WAIT_SECONDS) ∧
    ((∀ i, i ≤ MAX_RETRIES → (respond i).status_code = 429) →
      (make_request respond now).outcome = .error 429 ∧
      (make_request respond now).requests_made = MAX_RETRIES + 1 ∧
      (make_request respond now).sleeps.length = MAX_RETRIES) ∧
    (∀ k, k ≤ MAX_RETRIES → (∀ i, i < k → (respond i).status_code = 429) →
      (respond k).status_code ≠ 429 →
      (400 ≤ (respond k).status_code →
        (make_request respond now).outcome = .error (respond k).status_code ∧
        (make_request respond now).requests_made = k + 1) ∧
      ((respond k).status_code < 400 →
        (make_request respond now).outcome = .ok (respond k) ∧
        (make_request respond now).requests_made = k + 1 ∧
        (make_request respond now).sleeps = (List.range k).map
          (fun i => get_rate_limit_wait_time (respond i) now))) := by
  refine ⟨?_, ?_, ?_, ?_, ?_, ?_⟩
  · intro s t hs hp
    unfold get_rate_limit_wait_time
    rw [hs]
    rw [if_pos (pyTruthy_of_parses hp)]
    simp [hp]
  · intro s v hnone hra hp
    rw [get_rate_limit_wait_time_no_reset hnone, retryAfterWait_parses hra hp]
  · intro hnone hnone2
    rw [get_rate_limit_wait_time_no_reset hnone, retryAfterWait_default hnone2]
  · unfold get_rate_limit_wait_time retryAfterWait
      MAX_RATE_LIMIT_WAIT_SECONDS DEFAULT_RATE_LIMIT_WAIT_SECONDS
    split
    · split
      · omega
      · split
        · split <;> omega
        · omega
    · split
      · split <;> omega
      · omega
  · intro h
    have := makeRequestLoop_all429 respond now MAX_RETRIES 0 []
      (fun i hi => by simpa using h i hi)
    unfold make_request
    rw [this]
    refine ⟨rfl, by simp, by simp⟩
  · intro k hk h429 hstop
    have := makeRequestLoop_first_settled respond now k MAX_RETRIES 0 []
      hk (fun i hi => by simpa using h429 i hi) (by simpa using hstop)
    unfold make_request
    rw [this]
    simp only [Nat.zero_add]
    constructor
    · intro h4
      rw [if_pos h4]
      exact ⟨by trivial, by trivial⟩
    · intro h4
      rw [if_neg (by omega)]
      exact ⟨by trivial, by trivial, by simp⟩

/-- A transport answering 429 with no rate-limit headers forever. -/
def always429 : Nat → HttpResponse := fun _ => { status_code := 429 }

/-- A transport answering 429 twice (with a reset header) and then 200. -/
def twice429 : Nat → HttpResponse := fun i =>
  if i < 2 then { status_code := 429, rate_limit_reset := some "100" }
  else { status_code := 200 }

/-- Witness for C7: concrete wait computations for each header case,
retry exhaustion after six 429 responses, and a transparent recovery
after two 429 responses. -/
theorem rate_limit_handling_witness :
    get_rate_limit_wait_time { status_code := 429, rate_limit_reset := some "100" } 0 = 105 ∧
    get_rate_limit_wait_time { status_code := 429, retry_after := some "30" } 0 = 30 ∧
    get_rate_limit_wait_time { status_code := 429 } 0 = 60 ∧
    (make_request always429 0).outcome = .error 429 ∧
    (make_request always429 0).requests_made = 6 ∧
    (make_request twice429 0).outcome = .ok { status_code := 200 } ∧
    (make_request twice429 0).requests_made = 3 ∧
    (make_request twice429 0).sleeps = [105, 105] := by
  refine ⟨?_, ?_, ?_, ?_, ?_, ?_, ?_, ?_⟩
  · have h := (rate_limit_handling always429
      { status_code := 429, rate_limit_reset := some "100" } 0).1 "100" 100 rfl (by decide)
    rw [h]; decide
  · have h := (rate_limit_handling always429
      { status_code := 429, retry_after := some "30" } 0).2.1 "30" 30
      (by intro s0 h0; cases h0) rfl (by decide)
    rw [h]; decide
  · have h := (rate_limit_handling always429 { status_code := 429 } 0).2.2.1
      (by intro s0 h0; cases h0) (by intro s1 h1; cases h1)
    rw [h]; decide
  · exact ((rate_limit_handling always429 { status_code := 429 } 0).2.2.2.2.1
      (fun _ _ => rfl)).1
  · exact ((rate_limit_handling always429 { status_code := 429 } 0).2.2.2.2.1
      (fun _ _ => rfl)).2.1
  · exact (((rate_limit_handling twice429 { status_code := 429 } 0).2.2.2.2.2
      2 (by decide) (by intro i hi; interval_cases i <;> rfl) (by decide)).2 (by decide)).1
  · exact (((rate_limit_handling twice429 { status_code := 429 } 0).2.2.2.2.2
      2 (by decide) (by intro i hi; interval_cases i <;> rfl) (by decide)).2 (by decide)).2.1
  · have h := (((rate_limit_handling twice429 { status_code := 429 } 0).2.2.2.2.2
      2 (by decide) (by intro i hi; interval_cases i <;> rfl) (by decide)).2 (by decide)).2.2
    rw [h]; decide

/-- The inner creation loop when the requests before `r` all succeed and
creating `r` raises: the calls stop at `r` and the loop reports the
error message built at the failing request. -/
lemma attemptCreates_fail (collab : Collaborators) (tid : String) (e : String) :
    ∀ (pre suf : List RaindropCreateRequest) (r : RaindropCreateRequest),
      (∀ q ∈ pre, ∃ c, collab.create_raindrop q = .ok c) →
      collab.create_raindrop r = .error e →
      ∃ links, attemptCreates collab tid (pre ++ r :: suf) =
        (links, pre ++ [r],
         some ("[" ++ tid ++ "] Failed to create " ++ r.link ++ ": " ++ e)) := by
  intro pre
  induction pre with
  | nil =>
    intro suf r _ hfail
    refine ⟨[], ?_⟩
    simp [attemptCreates, hfail]
  | cons q t ih =>
    intro suf r hok hfail
    obtain ⟨c, hc⟩ := hok q (by simp)
    obtain ⟨links, hl⟩ := ih suf r (fun p hp => hok p (by simp [hp])) hfail
    refine ⟨c.link :: links, ?_⟩
    simp [attemptCreates, hc, hl]

/-- C2: per-item failure isolation in `SyncService.sync`.  For an item
not yet synced, in a live (non-dry) run whose requests resolve, if the
creations before request `r` succeed and creating `r` raises, then the
creation calls for the item stop at `r` (none of `suf` is attempted),
the deletion collaborator is not called, no sync record is written (the
state store is unchanged), the failed counter rises by exactly one,
exactly one error string naming the item is appended, the other
counters are unchanged, and the loop continues with the remaining
items; the embedded loop is total, so `sync` itself raises nothing. -/
theorem sync_item_failure_isolation
    (collab : Collaborators) (settings : SyncSettings) (now : Int)
    (rs : RunState) (b : BookmarkItem) (rest : List BookmarkItem)
    (pre suf : List RaindropCreateRequest) (r : RaindropCreateRequest)
    (e : String)
    (hns : rs.state.is_synced b.tweet_id = false)
    (hdry : settings.dry_run = false)
    (hreqs : create_raindrop_requests b settings = .ok (pre ++ r :: suf))
    (hok : ∀ q ∈ pre, ∃ c, collab.create_raindrop q = .ok c)
    (hfail : collab.create_raindrop r = .error e) :
    (processBookmark collab settings now rs b).state = rs.state ∧
    (processBookmark collab settings now rs b).result.failed =
      rs.result.failed + 1 ∧
    (processBookmark collab settings now rs b).result.newly_synced =
      rs.result.newly_synced ∧
    (processBookmark collab settings now rs b).result.already_synced =
      rs.result.already_synced ∧
    (processBookmark collab settings now rs b).result.errors =
      rs.result.errors ++
        ["[" ++ b.tweet_id ++ "] Failed to create " ++ r.link ++ ": " ++ e] ∧
    (processBookmark collab settings now rs b).trace.creates =
      rs.trace.creates ++ (pre ++ [r]) ∧
    (processBookmark collab settings now rs b).trace.deletes =
      rs.trace.deletes ∧
    (b :: rest).foldl (processBookmark collab settings now) rs =
      rest.foldl (processBookmark collab settings now)
        (processBookmark collab settings now rs b) := by
  obtain ⟨links, hatt⟩ := attemptCreates_fail collab b.tweet_id e pre suf r hok hfail
  have hproc : processBookmark collab settings now rs b =
      { rs with
        result :=
          { (rs.result.add_error
              ("[" ++ b.tweet_id ++ "] Failed to create " ++ r.link ++ ": " ++ e)) with
            failed := rs.result.failed + 1 },
        trace := { rs.trace with
          creates := rs.trace.creates ++ (pre ++ [r]) } } := by
    unfold processBookmark
    simp only [hns, Bool.false_eq_true, if_false, hreqs, hdry, hatt]
  rw [hproc]
  refine ⟨rfl, rfl, rfl, rfl, rfl, rfl, rfl, ?_⟩
  rw [List.foldl_cons, hproc]

/-- A collaborator pair whose creations always raise. -/
def collabCreateBoom : Collaborators :=
  { create_raindrop := fun _ => .error "boom",
    delete_bookmark := fun _ => .ok true }

/-- Settings for a live run into collection 1 in permalink mode. -/
def settingsLive : SyncSettings :=
  { collection_id := some 1 }

/-- A fresh run state over an empty store for a one-item fetch. -/
def rsFresh : RunState :=
  { state := {}, result := { total_bookmarks := 1 }, trace := {} }

/-- The single request `create_raindrop_requests` resolves for
`bmNoExt` under `settingsLive`. -/
def reqNoExt : RaindropCreateRequest :=
  { link := "https://x.com/i/status/1", title := some "t", excerpt := some "t",
    tags := [], collection_id := 1, note := none, source_tweet_id := "1" }

/-- Witness for C2 at a concrete failing creation. -/
theorem sync_item_failure_isolation_witness :
    (processBookmark collabCreateBoom settingsLive 0 rsFresh bmNoExt).result.failed = 1 ∧
    (processBookmark collabCreateBoom settingsLive 0 rsFresh bmNoExt).state =
      rsFresh.state := by
  have h := sync_item_failure_isolation collabCreateBoom settingsLive 0 rsFresh
    bmNoExt [] [] [] reqNoExt "boom" (by decide) rfl rfl
    (by intro q hq; cases hq) rfl
  exact ⟨by rw [h.2.1]; rfl, h.1⟩

/-- The inner creation loop when every request succeeds: every request
is called in order and the created links are collected. -/
lemma attemptCreates_all_ok (collab : Collaborators) (tid : String)
    (c : RaindropCreateRequest → Raindrop) :
    ∀ reqs : List RaindropCreateRequest,
      (∀ q ∈ reqs, collab.create_raindrop q = .ok (c q)) →
      attemptCreates collab tid reqs =
        (reqs.map (fun q => (c q).link), reqs, none) := by
  intro reqs
  induction reqs with
  | nil => intro _; rfl
  | cons q t ih =>
    intro hok
    have hq := hok q (by simp)
    have ht := ih (fun p hp => hok p (by simp [hp]))
    simp [attemptCreates, hq, ht]

/-- After a dict insertion the inserted binding is the one found for its
key. -/
lemma find?_dictInsert (k : String) (v : SyncedBookmark) :
    ∀ l : List (String × SyncedBookmark),
      (dictInsert l k v).find? (fun p => p.1 = k) = some (k, v) := by
  intro l
  induction l with
  | nil =>
    unfold dictInsert
    simp
  | cons p t ih =>
    by_cases hp : p.1 = k
    · unfold dictInsert
      rw [if_pos (by simp [hp])]
      simp [hp]
    · unfold dictInsert at ih ⊢
      by_cases ht : (t.any fun q => decide (q.1 = k)) = true
      · rw [if_pos (by simp only [List.any_cons, ht, Bool.or_true])]
        simp only [List.map_cons, if_neg hp]
        rw [List.find?_cons_of_neg _ (by simp [hp])]
        rw [if_pos ht] at ih
        exact ih
      · have hany : ¬(((p :: t).any fun q => decide (q.1 = k)) = true) := by
          simp only [List.any_cons, Bool.or_eq_true, not_or]
          exact ⟨by simpa using hp, ht⟩
        rw [if_neg hany]
        rw [List.cons_append, List.find?_cons_of_neg _ (by simp [hp])]
        rw [if_neg ht] at ih
        exact ih

/-- C3: best-effort deletion in `SyncService.sync`.  For an item whose
planned creations all succeed, with remove-from-source configured, if
the source-deletion call raises then the error is recorded, the item
still counts as newly synced, the failed and deleted counters are
unchanged, and a sync record is still written with the created links
and the deletion flag false. -/
theorem sync_best_effort_deletion
    (collab : Collaborators) (settings : SyncSettings) (now : Int)
    (rs : RunState) (b : BookmarkItem)
    (c : RaindropCreateRequest → Raindrop)
    (reqs : List RaindropCreateRequest) (e : String)
    (hns : rs.state.is_synced b.tweet_id = false)
    (hdry : settings.dry_run = false)
    (hreqs : create_raindrop_requests b settings = .ok reqs)
    (hok : ∀ q ∈ reqs, collab.create_raindrop q = .ok (c q))
    (hrm : settings.remove_from_x = true)
    (hdel : collab.delete_bookmark b.tweet_id = .error e) :
    (processBookmark collab settings now rs b).result.failed =
      rs.result.failed ∧
    (processBookmark collab settings now rs b).result.newly_synced =
      rs.result.newly_synced + 1 ∧
    (processBookmark collab settings now rs b).result.deleted_from_x =
      rs.result.deleted_from_x ∧
    (processBookmark collab settings now rs b).result.errors =
      rs.result.errors ++
        ["[" ++ b.tweet_id ++ "] Failed to delete from X: " ++ e] ∧
    (processBookmark collab settings now rs b).state =
      rs.state.mark_synced b.tweet_id (reqs.map (fun q => (c q).link)) false now ∧
    (processBookmark collab settings now rs b).state.get_synced b.tweet_id =
      some { tweet_id := b.tweet_id,
             raindrop_links := reqs.map (fun q => (c q).link),
             synced_at := now, deleted_from_x := false } ∧
    (processBookmark collab settings now rs b).trace.creates =
      rs.trace.creates ++ reqs ∧
    (processBookmark collab settings now rs b).trace.deletes =
      rs.trace.deletes ++ [b.tweet_id] := by
  have hatt := attemptCreates_all_ok collab b.tweet_id c reqs hok
  have hproc : processBookmark collab settings now rs b =
      { state := rs.state.mark_synced b.tweet_id
          (reqs.map (fun q => (c q).link)) false now,
        result := { (rs.result.add_error
            ("[" ++ b.tweet_id ++ "] Failed to delete from X: " ++ e)) with
          newly_synced := rs.result.newly_synced + 1 },
        trace := { creates := rs.trace.creates ++ reqs,
                   deletes := rs.trace.deletes ++ [b.tweet_id] } } := by
    unfold processBookmark
    simp only [hns, Bool.false_eq_true, if_false, hreqs, hdry, hatt, hrm,
      Bool.true_eq_false, if_true, hdel]
  rw [hproc]
  refine ⟨rfl, rfl, rfl, rfl, rfl, ?_, rfl, rfl⟩
  unfold SyncState.get_synced SyncState.mark_synced
  rw [find?_dictInsert]
  rfl

/-- A collaborator pair whose creations succeed and whose deletion
raises. -/
def collabDeleteBoom : Collaborators :=
  { create_raindrop := fun r => .ok { id := 1, link := r.link },
    delete_bookmark := fun _ => .error "nope" }

/-- Settings for a live run with remove-from-source configured. -/
def settingsRemove : SyncSettings :=
  { collection_id := some 1, remove_from_x := true }

/-- Witness for C3 at a concrete failing deletion. -/
theorem sync_best_effort_deletion_witness :
    (processBookmark collabDeleteBoom settingsRemove 0 rsFresh bmNoExt).result.newly_synced = 1 ∧
    (processBookmark collabDeleteBoom settingsRemove 0 rsFresh bmNoExt).result.failed = 0 ∧
    (processBookmark collabDeleteBoom settingsRemove 0 rsFresh bmNoExt).state.get_synced "1" =
      some { tweet_id := "1", raindrop_links := ["https://x.com/i/status/1"],
             synced_at := 0, deleted_from_x := false } := by
  have h := sync_best_effort_deletion collabDeleteBoom settingsRemove 0 rsFresh
    bmNoExt (fun r => { id := 1, link := r.link }) [reqNoExt] "nope"
    (by decide) rfl rfl (fun q _ => rfl) rfl rfl
  refine ⟨by rw [h.2.1]; rfl, by rw [h.1]; rfl, ?_⟩
  have hg := h.2.2.2.2.2.1
  exact hg

/-- An already-synced item is skipped: only the already-synced counter
changes. -/
lemma processBookmark_skip (collab : Collaborators) (settings : SyncSettings)
    (now : Int) (rs : RunState) (b : BookmarkItem)
    (h : rs.state.is_synced b.tweet_id = true) :
    processBookmark collab settings now rs b =
      { rs with result := { rs.result with
          already_synced := rs.result.already_synced + 1 } } := by
  unfold processBookmark
  rw [if_pos h]

/-- When every fetched item is already in the state store, the loop
only counts them as already synced: state, trace and the other counters
are untouched. -/
lemma syncFold_skip_all (collab : Collaborators) (settings : SyncSettings)
    (now : Int) :
    ∀ (bs : List BookmarkItem) (rs : RunState),
      (∀ b ∈ bs, rs.state.is_synced b.tweet_id = true) →
      bs.foldl (processBookmark collab settings now) rs =
        { rs with result := { rs.result with
            already_synced := rs.result.already_synced + bs.length } } := by
  intro bs
  induction bs with
  | nil =>
    intro rs _
    simp
  | cons b t ih =>
    intro rs h
    rw [List.foldl_cons, processBookmark_skip collab settings now rs b (h b (by simp))]
    rw [ih { rs with result := { rs.result with
          already_synced := rs.result.already_synced + 1 } }
        (fun q hq => h q (by simp [hq]))]
    simp only [List.length_cons]
    have harith : rs.result.already_synced + 1 + t.length =
        rs.result.already_synced + (t.length + 1) := by omega
    rw [harith]

/-- `processBookmark` never changes the total-bookmarks field. -/
lemma processBookmark_total (collab : Collaborators) (settings : SyncSettings)
    (now : Int) (rs : RunState) (b : BookmarkItem) :
    (processBookmark collab settings now rs b).result.total_bookmarks =
      rs.result.total_bookmarks := by
  unfold processBookmark
  (repeat' split) <;> rfl

/-- The loop never changes the total-bookmarks field. -/
lemma syncFold_total (collab : Collaborators) (settings : SyncSettings)
    (now : Int) :
    ∀ (bs : List BookmarkItem) (rs : RunState),
      (bs.foldl (processBookmark collab settings now) rs).result.total_bookmarks =
        rs.result.total_bookmarks := by
  intro bs
  induction bs with
  | nil => intro rs; rfl
  | cons b t ih =>
    intro rs
    rw [List.foldl_cons, ih, processBookmark_total]

/-- C4: idempotence across runs.  If after a first run every fetched
item id is marked in the state store, then a second run over the same
items against that store reports zero newly-synced items, reports as
already-synced exactly the first run's total, and issues no
destination-creation calls at all. -/
theorem sync_idempotent_second_run
    (collab collab2 : Collaborators) (settings settings2 : SyncSettings)
    (now now2 : Int) (bookmarks : List BookmarkItem) (st0 : SyncState)
    (h : ∀ b ∈ bookmarks,
      (SyncService.sync collab settings now bookmarks st0).state.is_synced
        b.tweet_id = true) :
    (SyncService.sync collab2 settings2 now2 bookmarks
        (SyncService.sync collab settings now bookmarks st0).state).result.newly_synced = 0 ∧
    (SyncService.sync collab2 settings2 now2 bookmarks
        (SyncService.sync collab settings now bookmarks st0).state).result.already_synced =
      (SyncService.sync collab settings now bookmarks st0).result.total_bookmarks ∧
    (SyncService.sync collab2 settings2 now2 bookmarks
        (SyncService.sync collab settings now bookmarks st0).state).trace.creates = [] := by
  have htot : (SyncService.sync collab settings now bookmarks st0).result.total_bookmarks =
      bookmarks.length := by
    unfold SyncService.sync
    rw [syncFold_total]
  have h2 := syncFold_skip_all collab2 settings2 now2 bookmarks
    { state := (SyncService.sync collab settings now bookmarks st0).state,
      result := { total_bookmarks := bookmarks.length },
      trace := {} } h
  have hs2 : SyncService.sync collab2 settings2 now2 bookmarks
      (SyncService.sync collab settings now bookmarks st0).state =
    { state := (SyncService.sync collab settings now bookmarks st0).state,
      result := { total_bookmarks := bookmarks.length,
                  already_synced := 0 + bookmarks.length },
      trace := {} } := h2
  rw [hs2, htot]
  exact ⟨rfl, by simp, rfl⟩

/-- A collaborator pair that always succeeds. -/
def collabAllOk : Collaborators :=
  { create_raindrop := fun r => .ok { id := 1, link := r.link },
    delete_bookmark := fun _ => .ok true }

/-- Witness for C4: a concrete first run over one item marks it, and
the concrete second run skips it without creation calls. -/
theorem sync_idempotent_second_run_witness :
    (SyncService.sync collabAllOk settingsLive 0 [bmNoExt]
        (SyncService.sync collabAllOk settingsLive 0 [bmNoExt] {}).state).result.newly_synced = 0 ∧
    (SyncService.sync collabAllOk settingsLive 0 [bmNoExt]
        (SyncService.sync collabAllOk settingsLive 0 [bmNoExt] {}).state).result.already_synced = 1 ∧
    (SyncService.sync collabAllOk settingsLive 0 [bmNoExt]
        (SyncService.sync collabAllOk settingsLive 0 [bmNoExt] {}).state).trace.creates = [] := by
  have h := sync_idempotent_second_run collabAllOk collabAllOk settingsLive
    settingsLive 0 0 [bmNoExt] {} (by decide)
  exact ⟨h.1, by rw [h.2.1]; rfl, h.2.2⟩

/-- Each loop iteration moves its item into exactly one of the three
outcome buckets and increments the deleted counter only alongside a
newly-synced increment. -/
lemma processBookmark_counters (collab : Collaborators)
    (settings : SyncSettings) (now : Int) (rs : RunState) (b : BookmarkItem) :
    ((processBookmark collab settings now rs b).result.already_synced +
      (processBookmark collab settings now rs b).result.newly_synced +
      (processBookmark collab settings now rs b).result.failed =
        rs.result.already_synced + rs.result.newly_synced +
          rs.result.failed + 1) ∧
    ((processBookmark collab settings now rs b).result.deleted_from_x +
        rs.result.newly_synced ≤
      (processBookmark collab settings now rs b).result.newly_synced +
        rs.result.deleted_from_x) := by
  unfold processBookmark
  (repeat' split) <;> simp [SyncResult.add_error] <;> omega

/-- The bucket partition and the deleted-bound accumulate over the
loop. -/
lemma syncFold_counters (collab : Collaborators) (settings : SyncSettings)
    (now : Int) :
    ∀ (bs : List BookmarkItem) (rs : RunState),
      ((bs.foldl (processBookmark collab settings now) rs).result.already_synced +
        (bs.foldl (processBookmark collab settings now) rs).result.newly_synced +
        (bs.foldl (processBookmark collab settings now) rs).result.failed =
          rs.result.already_synced + rs.result.newly_synced +
            rs.result.failed + bs.length) ∧
      ((bs.foldl (processBookmark collab settings now) rs).result.deleted_from_x +
          rs.result.newly_synced ≤
        (bs.foldl (processBookmark collab settings now) rs).result.newly_synced +
          rs.result.deleted_from_x) := by
  intro bs
  induction bs with
  | nil =>
    intro rs
    simp only [List.foldl_nil, List.length_nil]
    exact ⟨by omega, by omega⟩
  | cons b t ih =>
    intro rs
    rw [List.foldl_cons]
    have h1 := processBookmark_counters collab settings now rs b
    have h2 := ih (processBookmark collab settings now rs b)
    simp only [List.length_cons]
    omega

/-- C10: counter partition invariant.  Whatever each creation or
deletion call returns or raises, every run result satisfies
`already_synced + newly_synced + failed = total_bookmarks`, and
`deleted_from_x ≤ newly_synced`: every fetched item lands in exactly
one outcome bucket. -/
theorem sync_counter_partition (collab : Collaborators)
    (settings : SyncSettings) (now : Int)
    (bookmarks : List BookmarkItem) (st0 : SyncState) :
    ((SyncService.sync collab settings now bookmarks st0).result.already_synced +
      (SyncService.sync collab settings now bookmarks st0).result.newly_synced +
      (SyncService.sync collab settings now bookmarks st0).result.failed =
        (SyncService.sync collab settings now bookmarks st0).result.total_bookmarks) ∧
    ((SyncService.sync collab settings now bookmarks st0).result.deleted_from_x ≤
      (SyncService.sync collab settings now bookmarks st0).result.newly_synced) := by
  unfold SyncService.sync
  have h := syncFold_counters collab settings now bookmarks
    { state := st0, result := { total_bookmarks := bookmarks.length },
      trace := {} }
  have ht := syncFold_total collab settings now bookmarks
    { state := st0, result := { total_bookmarks := bookmarks.length },
      trace := {} }
  have h1 := h.1
  have h2 := h.2
  simp only at h1 h2 ht
  rw [ht]
  exact ⟨by omega, by omega⟩

/-- A concrete token for boundary evaluation. -/
def tokenAt (e : Int) : OAuth2Token :=
  { access_token := "a", refresh_token := none, token_type := "bearer",
    expires_at := e, scope := "read" }

/-- Witness for C8 at a concrete token and clock. -/
theorem is_expired_boundary_witness :
    (tokenAt 1000).is_expired 940 = true ∧
    ({ tokenAt 1000 with expires_at := 0 + 59 } : OAuth2Token).is_expired 0 = true ∧
    ({ tokenAt 1000 with expires_at := 0 + 61 } : OAuth2Token).is_expired 0 = false :=
  ⟨(is_expired_boundary (tokenAt 1000) 940).1.mpr (by decide),
   (is_expired_boundary (tokenAt 1000) 0).2.1,
   (is_expired_boundary (tokenAt 1000) 0).2.2⟩

end X2Raindrop
